import Mathlib

/-
Shallow embedding of the cloud layer of the rust-rocksdb fork
(src/cloud/): bucket options, kafka log options, cloud file-system
options, and the open/close lifecycle of CloudOptimisticTransactionDB.

Native (FFI) state is modelled explicitly: descriptor objects hold a
pointer (a natural number) into a store (a list of native records),
matching the raw-pointer semantics of the Rust code.  Calls into the
native library whose outcome the Rust code only observes (success,
error message, null pointer) are modelled by oracle records.  Rust
outcomes distinguish a normal return, a recoverable error
(rocksdb Error), and a process-aborting panic.
-/

namespace RocksdbCloud

/-- Outcome of a Rust computation: a normal value, a recoverable
rocksdb error carrying its message, or a process abort via panic
carrying the panic message. -/
inductive RustOutcome (α : Type) where
  | ok (val : α)
  | err (msg : String)
  | panicked (msg : String)
deriving DecidableEq

/-- The librdkafka debug contexts, from src/cloud/kafka_log_options.rs
(enum KafkaDebugContext). -/
inductive KafkaDebugContext where
  | All
  | Generic
  | Broker
  | Topic
  | Metadata
  | Queue
  | Msg
  | Protocol
  | Cgrp
  | Security
  | Fetch
  | Feature
deriving DecidableEq

/-- KafkaDebugContext::as_str from src/cloud/kafka_log_options.rs. -/
def KafkaDebugContext.as_str : KafkaDebugContext → String
  | .All => "all"
  | .Generic => "generic"
  | .Broker => "broker"
  | .Topic => "topic"
  | .Metadata => "metadata"
  | .Queue => "queue"
  | .Msg => "msg"
  | .Protocol => "protocol"
  | .Cgrp => "cgrp"
  | .Security => "security"
  | .Fetch => "fetch"
  | .Feature => "feature"

/-- The per-token match inside KafkaDebugContext::parse: a known token
maps to its variant, anything else is the panic arm (modelled as none). -/
def parseToken : String → Option KafkaDebugContext
  | "all" => some .All
  | "generic" => some .Generic
  | "broker" => some .Broker
  | "topic" => some .Topic
  | "metadata" => some .Metadata
  | "queue" => some .Queue
  | "msg" => some .Msg
  | "protocol" => some .Protocol
  | "cgrp" => some .Cgrp
  | "security" => some .Security
  | "fetch" => some .Fetch
  | "feature" => some .Feature
  | _ => none

/-- Rust str::split with the separator char, on character lists.
Empty pieces are kept and the empty input yields one empty piece,
matching the Rust iterator. -/
def splitCommaChars : List Char → List (List Char)
  | [] => [[]]
  | c :: rest =>
    if c = ',' then [] :: splitCommaChars rest
    else
      match splitCommaChars rest with
      | t :: ts => (c :: t) :: ts
      | [] => [[c]]

/-- Rust s.split(',') on a String, as used by KafkaDebugContext::parse. -/
def rustSplitComma (s : String) : List String :=
  (splitCommaChars s.data).map String.mk

/-- The map-and-collect over the split tokens inside
KafkaDebugContext::parse; hitting the panic arm aborts with the
Rust panic message for that token. -/
def parseTokens : List String → RustOutcome (List KafkaDebugContext)
  | [] => .ok []
  | t :: ts =>
    match parseToken t with
    | none => .panicked ("Unknown KafkaDebugContext: " ++ t)
    | some c =>
      match parseTokens ts with
      | .ok cs => .ok (c :: cs)
      | .err e => .err e
      | .panicked m => .panicked m

/-- KafkaDebugContext::parse from src/cloud/kafka_log_options.rs:
split on commas and map each token to its variant; an unknown token
panics (process abort), it is not a recoverable error. -/
def KafkaDebugContext.parse (s : String) : RustOutcome (List KafkaDebugContext) :=
  parseTokens (rustSplitComma s)

/-- Rust slice join with "," as used by KafkaLogOptions::set_debug. -/
def joinComma : List String → String
  | [] => ""
  | [s] => s
  | s :: rest => s ++ "," ++ joinComma rest

/-- The serialization performed by KafkaLogOptions::set_debug before
forwarding to the native setter: as_str of each context, joined by
commas. -/
def serializeDebug (cs : List KafkaDebugContext) : String :=
  joinComma (cs.map KafkaDebugContext.as_str)

/-
Heap model for the native descriptor objects.  A store is a list of
native records; a descriptor handle holds an index (the raw pointer).
heapGet / heapSet model dereferencing and in-place mutation through
the pointer.
-/

/-- Read the native record a pointer refers to (d is the value for a
dangling pointer; all theorems use in-range pointers). -/
def heapGet {α : Type} (σ : List α) (p : Nat) (d : α) : α :=
  σ.getD p d

/-- Overwrite the native record a pointer refers to. -/
def heapSet {α : Type} (σ : List α) (p : Nat) (n : α) : List α :=
  σ.set p n

/-- The native cloud bucket options record behind
rocksdb_cloud_bucket_options_t: the three string fields the Rust
wrapper reads and writes. -/
structure BucketNative where
  bucket_name : String
  region : String
  object_path : String
deriving DecidableEq

/-- The native kafka log options record behind
rocksdb_cloud_kafka_log_options_t: the fields the Rust wrapper
writes (broker list, serialized debug contexts, api version flag). -/
structure KafkaNative where
  broker_list : String
  debug : String
  api_version_request : Bool
deriving DecidableEq

/-- A CloudBucketOptions value (src/cloud/cloud_bucket_options.rs):
it owns a raw pointer to a native record. -/
structure CloudBucketOptions where
  ptr : Nat
deriving DecidableEq

/-- A KafkaLogOptions value (src/cloud/kafka_log_options.rs): a
Pin of an Arc of a wrapper holding the raw native pointer; the value
itself reduces to that pointer. -/
structure KafkaLogOptions where
  ptr : Nat
deriving DecidableEq

/-- An environment, as enumerated by std::env::vars: key/value pairs
in iteration order. -/
abbrev EnvVars := List (String × String)

namespace CloudBucketOptions

/-- Dereference for reads; the default record is irrelevant for
in-range pointers. -/
def native (d : CloudBucketOptions) (σ : List BucketNative) : BucketNative :=
  heapGet σ d.ptr ⟨"", "", ""⟩

/-- impl Clone for CloudBucketOptions: calls
rocksdb_cloud_bucket_options_create_copy, allocating a fresh native
record holding a copy of the current one. -/
def clone (d : CloudBucketOptions) (σ : List BucketNative) :
    CloudBucketOptions × List BucketNative :=
  (⟨σ.length⟩, σ ++ [d.native σ])

/-- CloudBucketOptions::set_bucket_name: writes through the pointer. -/
def set_bucket_name (d : CloudBucketOptions) (v : String)
    (σ : List BucketNative) : List BucketNative :=
  heapSet σ d.ptr { d.native σ with bucket_name := v }

/-- CloudBucketOptions::set_region: writes through the pointer. -/
def set_region (d : CloudBucketOptions) (v : String)
    (σ : List BucketNative) : List BucketNative :=
  heapSet σ d.ptr { d.native σ with region := v }

/-- CloudBucketOptions::set_object_path: writes through the pointer. -/
def set_object_path (d : CloudBucketOptions) (v : String)
    (σ : List BucketNative) : List BucketNative :=
  heapSet σ d.ptr { d.native σ with object_path := v }

/-- CloudBucketOptions::get_bucket_name. -/
def get_bucket_name (d : CloudBucketOptions) (σ : List BucketNative) : String :=
  (d.native σ).bucket_name

/-- CloudBucketOptions::get_region. -/
def get_region (d : CloudBucketOptions) (σ : List BucketNative) : String :=
  (d.native σ).region

/-- CloudBucketOptions::get_object_path. -/
def get_object_path (d : CloudBucketOptions) (σ : List BucketNative) : String :=
  (d.native σ).object_path

/-- One iteration of the std::env::vars loop in
CloudBucketOptions::read_from_env: apply the setter matching the
variable name on the result descriptor, else leave the store alone. -/
def envStep (result : CloudBucketOptions) (pfx : String)
    (σ : List BucketNative) (kv : String × String) : List BucketNative :=
  if kv.1 = pfx ++ "_BUCKET_NAME" then result.set_bucket_name kv.2 σ
  else if kv.1 = pfx ++ "_REGION" then result.set_region kv.2 σ
  else if kv.1 = pfx ++ "_OBJECT_PATH" then result.set_object_path kv.2 σ
  else σ

/-- The body of CloudBucketOptions::read_from_env: clone self, then
for each environment variable in iteration order apply the matching
setter (bucket name, region, object path) to the clone; other keys
are ignored.  Returns the clone; self is only read. -/
def read_from_env (d : CloudBucketOptions) (pfx : String) (env : EnvVars)
    (σ : List BucketNative) : CloudBucketOptions × List BucketNative :=
  let (result, σ₀) := d.clone σ
  (result, env.foldl (envStep result pfx) σ₀)

/-- impl Default for CloudBucketOptions: allocate a fresh native
record via rocksdb_cloud_bucket_options_create (its initial contents
are produced by the native library and are a parameter here), then
read_from_env with the fixed prefix ROCKSDB_CLOUD. -/
def defaultWith (init : BucketNative) (env : EnvVars)
    (σ : List BucketNative) : CloudBucketOptions × List BucketNative :=
  let fresh : CloudBucketOptions := ⟨σ.length⟩
  fresh.read_from_env "ROCKSDB_CLOUD" env (σ ++ [init])

end CloudBucketOptions

namespace KafkaLogOptions

/-- Dereference for reads. -/
def native (k : KafkaLogOptions) (σ : List KafkaNative) : KafkaNative :=
  heapGet σ k.ptr ⟨"", "", false⟩

/-- derive Clone on KafkaLogOptions clones the Pin of the Arc: the
returned value holds the same raw native pointer (no native copy is
made). -/
def clone (k : KafkaLogOptions) : KafkaLogOptions :=
  ⟨k.ptr⟩

/-- KafkaLogOptions::set_broker_list: writes through the shared
pointer. -/
def set_broker_list (k : KafkaLogOptions) (v : String)
    (σ : List KafkaNative) : List KafkaNative :=
  heapSet σ k.ptr { k.native σ with broker_list := v }

/-- KafkaLogOptions::set_debug: serializes the context slice with
as_str joined by commas and forwards the string to the native setter. -/
def set_debug (k : KafkaLogOptions) (cs : List KafkaDebugContext)
    (σ : List KafkaNative) : List KafkaNative :=
  heapSet σ k.ptr { k.native σ with debug := serializeDebug cs }

/-- KafkaLogOptions::set_api_version_request. -/
def set_api_version_request (k : KafkaLogOptions) (b : Bool)
    (σ : List KafkaNative) : List KafkaNative :=
  heapSet σ k.ptr { k.native σ with api_version_request := b }

/-- KafkaLogOptions::get_broker_list. -/
def get_broker_list (k : KafkaLogOptions) (σ : List KafkaNative) : String :=
  (k.native σ).broker_list

/-- One iteration of the std::env::vars loop in
KafkaLogOptions::read_from_env. -/
def envStep (result : KafkaLogOptions) (pfx : String)
    (σ : List KafkaNative) (kv : String × String) : List KafkaNative :=
  if kv.1 = pfx ++ "_BROKER_LIST" then result.set_broker_list kv.2 σ
  else σ

/-- The body of KafkaLogOptions::read_from_env: result is
self.clone() (which shares the native pointer), then each
environment variable whose key is the prefixed BROKER_LIST name is
applied through the shared pointer. -/
def read_from_env (k : KafkaLogOptions) (pfx : String) (env : EnvVars)
    (σ : List KafkaNative) : KafkaLogOptions × List KafkaNative :=
  let result := k.clone
  (result, env.foldl (envStep result pfx) σ)

/-- impl Default for KafkaLogOptions: allocate a fresh native record
via rocksdb_cloud_kafka_log_options_create (initial contents a
parameter), then read_from_env with the fixed prefix
ROCKSDB_CLOUD_KAFKA_LOG. -/
def defaultWith (init : KafkaNative) (env : EnvVars)
    (σ : List KafkaNative) : KafkaLogOptions × List KafkaNative :=
  let fresh : KafkaLogOptions := ⟨σ.length⟩
  fresh.read_from_env "ROCKSDB_CLOUD_KAFKA_LOG" env (σ ++ [init])

end KafkaLogOptions

/-- Pure form of one bucket env-loop iteration, acting on the native
record the result descriptor points to. -/
def applyBucketVar (pfx : String) (n : BucketNative) (kv : String × String) :
    BucketNative :=
  if kv.1 = pfx ++ "_BUCKET_NAME" then { n with bucket_name := kv.2 }
  else if kv.1 = pfx ++ "_REGION" then { n with region := kv.2 }
  else if kv.1 = pfx ++ "_OBJECT_PATH" then { n with object_path := kv.2 }
  else n

/-- Pure form of one kafka env-loop iteration. -/
def applyKafkaVar (pfx : String) (n : KafkaNative) (kv : String × String) :
    KafkaNative :=
  if kv.1 = pfx ++ "_BROKER_LIST" then { n with broker_list := kv.2 }
  else n

/-- The value of the last binding of a key in an environment, in
iteration order (the loop applies bindings in order, so the last one
wins). -/
def lastVal (env : EnvVars) (key : String) : Option String :=
  match env with
  | [] => none
  | kv :: rest =>
    match lastVal rest key with
    | some v => some v
    | none => if kv.1 = key then some kv.2 else none

/-- Modelled from the spec: crate::LogLevel is defined outside
src/cloud/; the spec lists the verbosity enum Debug, Info, Warn,
Error, Fatal, Header with default Info. -/
inductive LogLevel where
  | Debug
  | Info
  | Warn
  | Error
  | Fatal
  | Header
deriving DecidableEq

/-- CloudFileSystemOptionsWrapper (src/cloud/cloud_fs_options.rs):
the Rust-side fields guarded by the mutex.  The opaque native
rocksdb_cloud_fs_options_t pointer carries no state this layer reads
back, so only the Rust-side fields appear. -/
structure CloudFileSystemOptionsWrapper where
  persistent_cache_path : Option String
  persistent_cache_size_gb : Option Nat
  log_level : LogLevel
deriving DecidableEq

namespace CloudFileSystemOptionsWrapper

/-- The wrapper state built by impl Default for
CloudFileSystemOptions: no cache path, no cache size, Info level. -/
def defaultWrapper : CloudFileSystemOptionsWrapper :=
  ⟨none, none, .Info⟩

/-- CloudFileSystemOptions::set_persistent_cache_path. -/
def set_persistent_cache_path (o : CloudFileSystemOptionsWrapper)
    (p : String) : CloudFileSystemOptionsWrapper :=
  { o with persistent_cache_path := some p }

/-- CloudFileSystemOptions::set_persistent_cache_size_gb. -/
def set_persistent_cache_size_gb (o : CloudFileSystemOptionsWrapper)
    (s : Nat) : CloudFileSystemOptionsWrapper :=
  { o with persistent_cache_size_gb := some s }

/-- CloudFileSystemOptions::set_log_level. -/
def set_log_level (o : CloudFileSystemOptionsWrapper)
    (l : LogLevel) : CloudFileSystemOptionsWrapper :=
  { o with log_level := l }

/-- Getter CloudFileSystemOptions::persistent_cache_path. -/
def get_persistent_cache_path (o : CloudFileSystemOptionsWrapper) :
    Option String :=
  o.persistent_cache_path

/-- Getter CloudFileSystemOptions::persistent_cache_size_gb. -/
def get_persistent_cache_size_gb (o : CloudFileSystemOptionsWrapper) :
    Option Nat :=
  o.persistent_cache_size_gb

/-- Getter CloudFileSystemOptions::log_level. -/
def get_log_level (o : CloudFileSystemOptionsWrapper) : LogLevel :=
  o.log_level

end CloudFileSystemOptionsWrapper

/-
Lifecycle model for CloudOptimisticTransactionDB
(src/cloud/cloud_optimistic_transaction_db.rs).  The native calls the
Rust code makes are recorded as events in order; the outcomes of the
native calls (errors, null pointers) are supplied by oracle records.
-/

/-- Column family options as this layer sees them: either
Options::default() or some caller-specific options. -/
inductive OptionsV where
  | default
  | custom (id : Nat)
deriving DecidableEq

/-- A ColumnFamilyDescriptor: a name and its options. -/
structure ColumnFamilyDescriptor where
  name : String
  options : OptionsV
deriving DecidableEq

/-- Modelled from the spec: the constant DEFAULT_COLUMN_FAMILY_NAME
is defined outside src/cloud/; the spec names the implicitly added
column family "default". -/
def DEFAULT_COLUMN_FAMILY_NAME : String := "default"

/-- The native calls made during open and close, in program order. -/
inductive FFIEvent where
  | createDir
  | openCall (path : String) (cachePath : String) (cacheSizeGb : Nat)
  | openCfCall (path : String) (cachePath : String) (cacheSizeGb : Nat)
      (cfNames : List String)
  | getTxnDb
  | getBaseDb
  | closeCloudDb
  | closeBaseDb
  | flushCall
deriving DecidableEq

/-- Oracle for one call to open: outcomes of the path conversion, the
directory creation, the native open (error or returned pointers) and
the out column-family handles (true at index i means the i-th handle
was left null). -/
structure OpenWorld where
  cpathOk : Bool
  createDirOk : Bool
  openErrMsg : Option String
  dbNull : Bool
  cfNull : Nat → Bool
  txnDbNull : Bool
  baseNull : Bool

/-- The cfs_v computation inside open_cf_descriptors_internal for a
non-empty request: push a descriptor named "default" with default
Options unless one of the requested names is already "default". -/
def cfsWithDefault (cfs : List ColumnFamilyDescriptor) :
    List ColumnFamilyDescriptor :=
  if cfs.any (fun cf => cf.name = DEFAULT_COLUMN_FAMILY_NAME) then cfs
  else cfs ++ [⟨DEFAULT_COLUMN_FAMILY_NAME, OptionsV.default⟩]

/-- The persistent cache path argument computed in open_raw and
open_cf_raw: the configured path, or the empty string when unset. -/
def cachePathArg (o : CloudFileSystemOptionsWrapper) : String :=
  o.persistent_cache_path.getD ""

/-- The persistent cache size argument computed in open_raw and
open_cf_raw: the configured size, or 0 when unset. -/
def cacheSizeArg (o : CloudFileSystemOptionsWrapper) : Nat :=
  o.persistent_cache_size_gb.getD 0

/-- CString conversion (CStrLike::into_c_string / CString::new):
fails exactly when the string holds an interior NUL byte; the Rust
code unwraps the result, so failure is a panic. -/
def intoCString (s : String) : Option String :=
  if s.data.contains (Char.ofNat 0) then none else some s

/-- open_cf_descriptors_internal from
src/cloud/cloud_optimistic_transaction_db.rs, as a function of the
configuration wrapper, the requested path and column families, and
the native-call oracle.  Returns the Rust outcome paired with the
ordered list of native calls made. -/
def openCfInternal (o : CloudFileSystemOptionsWrapper) (path : String)
    (cfs : List ColumnFamilyDescriptor) (w : OpenWorld) :
    RustOutcome Unit × List FFIEvent :=
  if w.cpathOk = false then
    (.err "Failed to convert path to CString when opening DB.", [])
  else if w.createDirOk = false then
    (.err "Failed to create RocksDB directory.", [.createDir])
  else
    let t0 : List FFIEvent := [.createDir]
    if cfs.isEmpty then
      match intoCString (cachePathArg o) with
      | none => (.panicked "called unwrap on an Err value", t0)
      | some cp =>
        let t1 := t0 ++ [FFIEvent.openCall path cp (cacheSizeArg o)]
        match w.openErrMsg with
        | some e => (.err e, t1)
        | none =>
          if w.dbNull then (.err "Could not initialize database.", t1)
          else
            let t2 := t1 ++ [FFIEvent.getTxnDb]
            if w.txnDbNull then
              (.err "Could not initialize database.", t2 ++ [FFIEvent.closeCloudDb])
            else
              let t3 := t2 ++ [FFIEvent.getBaseDb]
              if w.baseNull then
                (.err "Could not initialize database.", t3 ++ [FFIEvent.closeCloudDb])
              else (.ok (), t3)
    else
      let cfsV := cfsWithDefault cfs
      if cfsV.any (fun cf => cf.name.data.contains (Char.ofNat 0)) then
        (.panicked "called unwrap on an Err value", t0)
      else
        match intoCString (cachePathArg o) with
        | none => (.panicked "called unwrap on an Err value", t0)
        | some cp =>
          let t1 := t0 ++
            [FFIEvent.openCfCall path cp (cacheSizeArg o)
              (cfsV.map (fun cf => cf.name))]
          match w.openErrMsg with
          | some e => (.err e, t1)
          | none =>
            if (List.range cfsV.length).any (fun i => w.cfNull i) then
              (.err "Received null column family handle from DB.", t1)
            else if w.dbNull then
              (.err "Could not initialize database.", t1)
            else
              let t2 := t1 ++ [FFIEvent.getTxnDb]
              if w.txnDbNull then
                (.err "Could not initialize database.", t2 ++ [FFIEvent.closeCloudDb])
              else
                let t3 := t2 ++ [FFIEvent.getBaseDb]
                if w.baseNull then
                  (.err "Could not initialize database.", t3 ++ [FFIEvent.closeCloudDb])
                else (.ok (), t3)

/-- Oracle for one call to close: the outcome of the native
rocksdb_flush call (some message means it reported an error). -/
structure CloseWorld where
  flushErrMsg : Option String
deriving DecidableEq

/-- CloudOptimisticTransactionDBInner::flush: one rocksdb_flush call,
whose error (if any) is returned as a recoverable error. -/
def innerFlush (w : CloseWorld) : RustOutcome Unit × List FFIEvent :=
  match w.flushErrMsg with
  | some e => (.err e, [.flushCall])
  | none => (.ok (), [.flushCall])

/-- CloudOptimisticTransactionDBInner::close: close the base handle
via rocksdb_optimistictransactiondb_close_base_db, then the cloud
handle via rocksdb_cloud_otxn_close. -/
def innerClose : List FFIEvent :=
  [.closeBaseDb, .closeCloudDb]

/-- CloudOptimisticTransactionDB::close: flush, propagating a flush
error immediately via the question-mark operator; only on flush
success run inner close and return Ok. -/
def dbClose (w : CloseWorld) : RustOutcome Unit × List FFIEvent :=
  match innerFlush w with
  | (.ok _, t) => (.ok (), t ++ innerClose)
  | (.err e, t) => (.err e, t)
  | (.panicked m, t) => (.panicked m, t)

/-- Two consecutive calls of close on the same instance: the struct
holds no state recording that close already ran, so the second call
re-runs the same sequence; the oracle of each call is independent. -/
def doubleCloseTrace (w₁ w₂ : CloseWorld) : List FFIEvent :=
  (dbClose w₁).2 ++ (dbClose w₂).2

/-
Basic lemmas about the heap model.
-/

theorem heapSet_length {α : Type} (σ : List α) (p : Nat) (n : α) :
    (heapSet σ p n).length = σ.length := by
  simp [heapSet]

theorem heapGet_set_self {α : Type} (σ : List α) (p : Nat) (n d : α)
    (h : p < σ.length) : heapGet (heapSet σ p n) p d = n := by
  induction σ generalizing p with
  | nil => simp at h
  | cons a as ih =>
    cases p with
    | zero => rfl
    | succ q => exact ih q (by simpa using h)

theorem heapGet_set_ne {α : Type} (σ : List α) (p q : Nat) (n d : α)
    (h : p ≠ q) : heapGet (heapSet σ p n) q d = heapGet σ q d := by
  induction σ generalizing p q with
  | nil => rfl
  | cons a as ih =>
    cases p with
    | zero =>
      cases q with
      | zero => exact absurd rfl h
      | succ q' => rfl
    | succ p' =>
      cases q with
      | zero => rfl
      | succ q' => exact ih p' q' (fun hh => h (by rw [hh]))

theorem heapGet_append_left {α : Type} (σ τ : List α) (q : Nat) (d : α)
    (h : q < σ.length) : heapGet (σ ++ τ) q d = heapGet σ q d := by
  induction σ generalizing q with
  | nil => simp at h
  | cons a as ih =>
    cases q with
    | zero => rfl
    | succ q' => exact ih q' (by simpa using h)

theorem heapGet_append_self {α : Type} (σ : List α) (x d : α) :
    heapGet (σ ++ [x]) σ.length d = x := by
  induction σ with
  | nil => rfl
  | cons a as ih => simpa using ih

/-- C1: close() flushes first; only if the flush succeeds does it
close the generic base engine handle and only after that the
cloud-specific handle; if flush reports an error, close() returns
that very error and neither handle-closing native call is made. -/
theorem close_flushes_then_closes_in_order (w : CloseWorld) :
    (w.flushErrMsg = none →
      dbClose w = (.ok (), [.flushCall, .closeBaseDb, .closeCloudDb])) ∧
    (∀ e, w.flushErrMsg = some e →
      dbClose w = (.err e, [.flushCall]) ∧
      FFIEvent.closeBaseDb ∉ (dbClose w).2 ∧
      FFIEvent.closeCloudDb ∉ (dbClose w).2) := by
  refine ⟨fun h => ?_, fun e h => ?_⟩
  · simp [dbClose, innerFlush, innerClose, h]
  · have hd : dbClose w = (.err e, [.flushCall]) := by
      simp [dbClose, innerFlush, h]
    refine ⟨hd, ?_, ?_⟩ <;> rw [hd] <;> simp

/-- Witness for C1 at the two concrete flush oracles: a succeeding
flush and a flush failing with the message "flush failed". -/
theorem close_flushes_then_closes_in_order_witness :
    dbClose ⟨none⟩ = (.ok (), [.flushCall, .closeBaseDb, .closeCloudDb]) ∧
    dbClose ⟨some "flush failed"⟩ = (.err "flush failed", [.flushCall]) :=
  ⟨(close_flushes_then_closes_in_order ⟨none⟩).1 rfl,
   ((close_flushes_then_closes_in_order ⟨some "flush failed"⟩).2
     "flush failed" rfl).1⟩

/-- C3 counterexample: after a first successful close(), a second
close() on the same instance is neither a no-op nor an AlreadyClosed
error: the struct keeps no closed flag, so both native handle-closing
calls run a second time (each close call appears twice in the
combined trace). -/
theorem second_close_double_releases_counterexample :
    dbClose ⟨none⟩ = (.ok (), [.flushCall, .closeBaseDb, .closeCloudDb]) ∧
    (doubleCloseTrace ⟨none⟩ ⟨none⟩).count FFIEvent.closeBaseDb = 2 ∧
    (doubleCloseTrace ⟨none⟩ ⟨none⟩).count FFIEvent.closeCloudDb = 2 ∧
    ¬ (doubleCloseTrace ⟨none⟩ ⟨none⟩).count FFIEvent.closeBaseDb ≤ 1 := by
  decide

/-- C3 amended: the instance records no Closed state, so a second
close() re-runs the whole shutdown sequence; when both flushes
succeed the combined trace closes the base handle and the cloud
handle twice each, in the same order both times.  The caller must
ensure close() runs at most once. -/
theorem second_close_repeats_shutdown_sequence (w₁ w₂ : CloseWorld)
    (h₁ : w₁.flushErrMsg = none) (h₂ : w₂.flushErrMsg = none) :
    doubleCloseTrace w₁ w₂ =
      [.flushCall, .closeBaseDb, .closeCloudDb,
       .flushCall, .closeBaseDb, .closeCloudDb] := by
  simp [doubleCloseTrace, dbClose, innerFlush, innerClose, h₁, h₂]

/-- Witness for the amended C3 at the concrete all-succeeding flush
oracles. -/
theorem second_close_repeats_shutdown_sequence_witness :
    doubleCloseTrace ⟨none⟩ ⟨none⟩ =
      [.flushCall, .closeBaseDb, .closeCloudDb,
       .flushCall, .closeBaseDb, .closeCloudDb] :=
  second_close_repeats_shutdown_sequence ⟨none⟩ ⟨none⟩ rfl rfl

/-- C4 counterexample: parse of the unknown token "unknown" does not
fail with a recoverable error: it takes the panic arm and aborts the
process with the Rust panic message. -/
theorem parse_unknown_token_panics_counterexample :
    KafkaDebugContext.parse "unknown" =
      .panicked "Unknown KafkaDebugContext: unknown" ∧
    KafkaDebugContext.parse "unknown" ≠
      .err "Unknown KafkaDebugContext: unknown" := by
  decide

/-- Helper for C4: whenever some split token matches no variant,
parseTokens panics with the Rust message naming the first such token
reached. -/
theorem parseTokens_panicked_of_unknown (ts : List String)
    (h : ∃ t ∈ ts, parseToken t = none) :
    ∃ t, parseToken t = none ∧
      parseTokens ts = .panicked ("Unknown KafkaDebugContext: " ++ t) := by
  induction ts with
  | nil => simp at h
  | cons t rest ih =>
    cases ht : parseToken t with
    | none => exact ⟨t, ht, by simp [parseTokens, ht]⟩
    | some c =>
      have hrest : ∃ u ∈ rest, parseToken u = none := by
        rcases h with ⟨u, hu, hpu⟩
        rcases List.mem_cons.mp hu with h1 | h2
        · rw [h1] at hpu; rw [hpu] at ht; exact absurd ht (by simp)
        · exact ⟨u, h2, hpu⟩
      rcases ih hrest with ⟨u, hpu, heq⟩
      exact ⟨u, hpu, by simp [parseTokens, ht, heq]⟩

/-- C4 amended: parse("broker,topic") is exactly the ordered sequence
Broker, Topic; but an input containing a comma-separated token that
matches no variant makes parse panic (process abort) with the
offending token in the message — the source does not return a
recoverable error. -/
theorem parse_broker_topic_and_unknown_panics :
    KafkaDebugContext.parse "broker,topic" = .ok [.Broker, .Topic] ∧
    ∀ s : String, (∃ t ∈ rustSplitComma s, parseToken t = none) →
      ∃ t, parseToken t = none ∧
        KafkaDebugContext.parse s =
          .panicked ("Unknown KafkaDebugContext: " ++ t) := by
  refine ⟨by decide, fun s h => ?_⟩
  exact parseTokens_panicked_of_unknown (rustSplitComma s) h

/-- Witness for the amended C4 at the concrete input "unknown". -/
theorem parse_broker_topic_and_unknown_panics_witness :
    KafkaDebugContext.parse "broker,topic" = .ok [.Broker, .Topic] ∧
    ∃ t, parseToken t = none ∧
      KafkaDebugContext.parse "unknown" =
        .panicked ("Unknown KafkaDebugContext: " ++ t) :=
  ⟨parse_broker_topic_and_unknown_panics.1,
   parse_broker_topic_and_unknown_panics.2 "unknown"
     ⟨"unknown", by decide, by decide⟩⟩

/-- C2 (code bug): at an open of one requested column family where
the native multi-CF open succeeds but leaves the out column-family
handle null, open fails with the null-handle error yet the trace
holds no rocksdb_cloud_otxn_close call: the partially-opened native
db is leaked.  By contrast, at the adjacent null-txn-handle branch of
the same open the code does release the native db before returning
the error. -/
theorem null_cf_handle_error_leaks_native_db :
    (openCfInternal CloudFileSystemOptionsWrapper.defaultWrapper "path"
        [⟨"cf1", OptionsV.custom 0⟩]
        ⟨true, true, none, false, fun _ => true, false, false⟩ =
      (.err "Received null column family handle from DB.",
       [.createDir, .openCfCall "path" "" 0 ["cf1", "default"]])) ∧
    FFIEvent.closeCloudDb ∉
      (openCfInternal CloudFileSystemOptionsWrapper.defaultWrapper "path"
        [⟨"cf1", OptionsV.custom 0⟩]
        ⟨true, true, none, false, fun _ => true, false, false⟩).2 ∧
    FFIEvent.closeCloudDb ∈
      (openCfInternal CloudFileSystemOptionsWrapper.defaultWrapper "path"
        [⟨"cf1", OptionsV.custom 0⟩]
        ⟨true, true, none, false, fun _ => false, true, false⟩).2 := by
  decide

/-- Helper: under a convertible path, a created directory, NUL-free
column-family names and a NUL-free cache path, the non-empty-request
open reaches the native multi-CF open as its second native call,
passing the names of cfsWithDefault, and never panics. -/
theorem openCfInternal_trace_cf (o : CloudFileSystemOptionsWrapper)
    (path : String) (cfs : List ColumnFamilyDescriptor) (w : OpenWorld)
    (hcp : w.cpathOk = true) (hdir : w.createDirOk = true)
    (hne : cfs.isEmpty = false)
    (hnul : (cfsWithDefault cfs).any
      (fun cf => cf.name.data.contains (Char.ofNat 0)) = false)
    (hcache : (cachePathArg o).data.contains (Char.ofNat 0) = false) :
    (openCfInternal o path cfs w).2.take 2 =
      [.createDir, .openCfCall path (cachePathArg o) (cacheSizeArg o)
        ((cfsWithDefault cfs).map (fun cf => cf.name))] ∧
    ∀ m, (openCfInternal o path cfs w).1 ≠ .panicked m := by
  have hcs : intoCString (cachePathArg o) = some (cachePathArg o) := by
    unfold intoCString
    rw [hcache]
    rfl
  unfold openCfInternal
  simp only [hcp, hdir, hne, hnul, hcs, Bool.false_eq_true, if_false,
    Bool.true_eq_false, ite_false]
  split
  · simp
  split
  · simp
  split
  · simp
  split
  · simp
  split <;> simp

/-- Helper: under a convertible path and a created directory and a
NUL-free cache path, the empty-request open reaches the native
single-handle open as its second native call and never panics. -/
theorem openCfInternal_trace_empty (o : CloudFileSystemOptionsWrapper)
    (path : String) (w : OpenWorld)
    (hcp : w.cpathOk = true) (hdir : w.createDirOk = true)
    (hcache : (cachePathArg o).data.contains (Char.ofNat 0) = false) :
    (openCfInternal o path [] w).2.take 2 =
      [.createDir, .openCall path (cachePathArg o) (cacheSizeArg o)] ∧
    ∀ m, (openCfInternal o path [] w).1 ≠ .panicked m := by
  have hcs : intoCString (cachePathArg o) = some (cachePathArg o) := by
    unfold intoCString
    rw [hcache]
    rfl
  unfold openCfInternal
  simp only [hcp, hdir, hcs, Bool.false_eq_true, if_false,
    Bool.true_eq_false, ite_false, List.isEmpty_nil, if_true]
  split
  · simp
  split
  · simp
  split
  · simp
  split <;> simp

/-- Helper: when every requested column-family name is NUL-free, so
is every name in cfsWithDefault (the appended "default" name has no
NUL byte). -/
theorem cfsWithDefault_names_nul_free (cfs : List ColumnFamilyDescriptor)
    (hnul : ∀ cf ∈ cfs, cf.name.data.contains (Char.ofNat 0) = false) :
    (cfsWithDefault cfs).any
      (fun cf => cf.name.data.contains (Char.ofNat 0)) = false := by
  rw [List.any_eq_false]
  intro cf hcf
  unfold cfsWithDefault at hcf
  split at hcf
  · simpa using hnul cf hcf
  · rcases List.mem_append.mp hcf with h1 | h2
    · simpa using hnul cf h1
    · rw [List.mem_singleton] at h2
      subst h2
      decide

/-- C8: for a non-empty requested column-family list, the native
multi-column-family open receives exactly the requested list with a
"default"-named descriptor carrying default Options appended when no
requested name is "default", and the unchanged requested list when
one already is. -/
theorem open_passes_requested_cfs_with_default
    (o : CloudFileSystemOptionsWrapper) (path : String)
    (cfs : List ColumnFamilyDescriptor) (w : OpenWorld)
    (hne : cfs ≠ [])
    (hcp : w.cpathOk = true) (hdir : w.createDirOk = true)
    (hnul : ∀ cf ∈ cfs, cf.name.data.contains (Char.ofNat 0) = false)
    (hcache : (cachePathArg o).data.contains (Char.ofNat 0) = false) :
    (cfs.any (fun cf => cf.name = DEFAULT_COLUMN_FAMILY_NAME) = false →
      cfsWithDefault cfs =
        cfs ++ [⟨DEFAULT_COLUMN_FAMILY_NAME, OptionsV.default⟩]) ∧
    (cfs.any (fun cf => cf.name = DEFAULT_COLUMN_FAMILY_NAME) = true →
      cfsWithDefault cfs = cfs) ∧
    (openCfInternal o path cfs w).2.take 2 =
      [.createDir, .openCfCall path (cachePathArg o) (cacheSizeArg o)
        ((cfsWithDefault cfs).map (fun cf => cf.name))] := by
  refine ⟨fun h => by simp [cfsWithDefault, h],
          fun h => by simp [cfsWithDefault, h], ?_⟩
  have hne' : cfs.isEmpty = false := by
    cases cfs with
    | nil => exact absurd rfl hne
    | cons a l => rfl
  exact (openCfInternal_trace_cf o path cfs w hcp hdir hne'
    (cfsWithDefault_names_nul_free cfs hnul) hcache).1

/-- Witness for C8 at a concrete open of one column family "cf1"
with an all-succeeding native oracle. -/
theorem open_passes_requested_cfs_with_default_witness :
    (openCfInternal CloudFileSystemOptionsWrapper.defaultWrapper "p"
        [⟨"cf1", OptionsV.custom 0⟩]
        ⟨true, true, none, false, fun _ => false, false, false⟩).2.take 2 =
      [.createDir,
       .openCfCall "p"
         (cachePathArg CloudFileSystemOptionsWrapper.defaultWrapper)
         (cacheSizeArg CloudFileSystemOptionsWrapper.defaultWrapper)
         ((cfsWithDefault [⟨"cf1", OptionsV.custom 0⟩]).map
           (fun cf => cf.name))] :=
  (open_passes_requested_cfs_with_default
    CloudFileSystemOptionsWrapper.defaultWrapper "p"
    [⟨"cf1", OptionsV.custom 0⟩]
    ⟨true, true, none, false, fun _ => false, false, false⟩
    (by decide) rfl rfl (by decide) (by decide)).2.2

/-- C10: with no persistent cache path and no persistent cache size
configured, the native open call (single-handle or multi-CF) receives
the empty string as cache path and 0 as cache size in gigabytes, and
the open never panics computing these arguments. -/
theorem open_unset_cache_params_pass_empty_and_zero
    (o : CloudFileSystemOptionsWrapper) (path : String)
    (cfs : List ColumnFamilyDescriptor) (w : OpenWorld)
    (hp : o.persistent_cache_path = none)
    (hs : o.persistent_cache_size_gb = none)
    (hcp : w.cpathOk = true) (hdir : w.createDirOk = true)
    (hnul : ∀ cf ∈ cfs, cf.name.data.contains (Char.ofNat 0) = false) :
    cachePathArg o = "" ∧ cacheSizeArg o = 0 ∧
    (cfs = [] →
      (openCfInternal o path cfs w).2.take 2 =
        [.createDir, .openCall path "" 0]) ∧
    (cfs ≠ [] →
      (openCfInternal o path cfs w).2.take 2 =
        [.createDir, .openCfCall path "" 0
          ((cfsWithDefault cfs).map (fun cf => cf.name))]) ∧
    (∀ m, (openCfInternal o path cfs w).1 ≠ .panicked m) := by
  have h1 : cachePathArg o = "" := by simp [cachePathArg, hp]
  have h2 : cacheSizeArg o = 0 := by simp [cacheSizeArg, hs]
  have hcache : (cachePathArg o).data.contains (Char.ofNat 0) = false := by
    rw [h1]; decide
  refine ⟨h1, h2, fun hcfs => ?_, fun hne => ?_, fun m => ?_⟩
  · subst hcfs
    have h := (openCfInternal_trace_empty o path w hcp hdir hcache).1
    rw [h1, h2] at h
    exact h
  · have hne' : cfs.isEmpty = false := by
      cases cfs with
      | nil => exact absurd rfl hne
      | cons a l => rfl
    have h := (openCfInternal_trace_cf o path cfs w hcp hdir hne'
      (cfsWithDefault_names_nul_free cfs hnul) hcache).1
    rw [h1, h2] at h
    exact h
  · cases cfs with
    | nil => exact (openCfInternal_trace_empty o path w hcp hdir hcache).2 m
    | cons a l =>
      exact (openCfInternal_trace_cf o path (a :: l) w hcp hdir rfl
        (cfsWithDefault_names_nul_free (a :: l) hnul) hcache).2 m

/-- Witness for C10 at a concrete open with no requested column
families, the default configuration wrapper (no cache settings) and
an all-succeeding native oracle. -/
theorem open_unset_cache_params_pass_empty_and_zero_witness :
    cachePathArg CloudFileSystemOptionsWrapper.defaultWrapper = "" ∧
    cacheSizeArg CloudFileSystemOptionsWrapper.defaultWrapper = 0 ∧
    (openCfInternal CloudFileSystemOptionsWrapper.defaultWrapper "p" []
        ⟨true, true, none, false, fun _ => false, false, false⟩).2.take 2 =
      [.createDir, .openCall "p" "" 0] := by
  have h := open_unset_cache_params_pass_empty_and_zero
    CloudFileSystemOptionsWrapper.defaultWrapper "p" []
    ⟨true, true, none, false, fun _ => false, false, false⟩
    rfl rfl rfl rfl (by decide)
  exact ⟨h.1, h.2.1, h.2.2.1 rfl⟩

/-
Lemmas about the environment-reading folds of the descriptors.
-/

theorem bucket_read_from_env_eq (d : CloudBucketOptions) (pfx : String)
    (env : EnvVars) (σ : List BucketNative) :
    d.read_from_env pfx env σ =
      (⟨σ.length⟩,
       env.foldl (CloudBucketOptions.envStep ⟨σ.length⟩ pfx)
         (σ ++ [d.native σ])) := rfl

theorem kafka_read_from_env_eq (k : KafkaLogOptions) (pfx : String)
    (env : EnvVars) (σ : List KafkaNative) :
    k.read_from_env pfx env σ =
      (⟨k.ptr⟩, env.foldl (KafkaLogOptions.envStep ⟨k.ptr⟩ pfx) σ) := rfl

theorem bucket_step_length (result : CloudBucketOptions) (pfx : String)
    (σ : List BucketNative) (kv : String × String) :
    (CloudBucketOptions.envStep result pfx σ kv).length = σ.length := by
  unfold CloudBucketOptions.envStep CloudBucketOptions.set_bucket_name
    CloudBucketOptions.set_region CloudBucketOptions.set_object_path
  split
  · simp [heapSet]
  split
  · simp [heapSet]
  split
  · simp [heapSet]
  rfl

theorem bucket_fold_frame (result : CloudBucketOptions) (pfx : String)
    (env : EnvVars) (σ : List BucketNative) (q : Nat) (d : BucketNative)
    (h : q ≠ result.ptr) :
    heapGet (env.foldl (CloudBucketOptions.envStep result pfx) σ) q d =
      heapGet σ q d := by
  induction env generalizing σ with
  | nil => rfl
  | cons kv rest ih =>
    rw [List.foldl_cons, ih]
    unfold CloudBucketOptions.envStep CloudBucketOptions.set_bucket_name
      CloudBucketOptions.set_region CloudBucketOptions.set_object_path
    split
    · exact heapGet_set_ne _ _ _ _ _ (Ne.symm h)
    split
    · exact heapGet_set_ne _ _ _ _ _ (Ne.symm h)
    split
    · exact heapGet_set_ne _ _ _ _ _ (Ne.symm h)
    rfl

theorem bucket_step_value (result : CloudBucketOptions) (pfx : String)
    (σ : List BucketNative) (kv : String × String)
    (h : result.ptr < σ.length) :
    heapGet (CloudBucketOptions.envStep result pfx σ kv) result.ptr ⟨"", "", ""⟩ =
      applyBucketVar pfx (heapGet σ result.ptr ⟨"", "", ""⟩) kv := by
  unfold CloudBucketOptions.envStep applyBucketVar
    CloudBucketOptions.set_bucket_name CloudBucketOptions.set_region
    CloudBucketOptions.set_object_path CloudBucketOptions.native
  by_cases h1 : kv.1 = pfx ++ "_BUCKET_NAME"
  · simp only [if_pos h1]
    exact heapGet_set_self _ _ _ _ h
  by_cases h2 : kv.1 = pfx ++ "_REGION"
  · simp only [if_neg h1, if_pos h2]
    exact heapGet_set_self _ _ _ _ h
  by_cases h3 : kv.1 = pfx ++ "_OBJECT_PATH"
  · simp only [if_neg h1, if_neg h2, if_pos h3]
    exact heapGet_set_self _ _ _ _ h
  simp only [if_neg h1, if_neg h2, if_neg h3]

theorem bucket_fold_value (result : CloudBucketOptions) (pfx : String)
    (env : EnvVars) (σ : List BucketNative)
    (h : result.ptr < σ.length) :
    heapGet (env.foldl (CloudBucketOptions.envStep result pfx) σ)
        result.ptr ⟨"", "", ""⟩ =
      env.foldl (applyBucketVar pfx) (heapGet σ result.ptr ⟨"", "", ""⟩) := by
  induction env generalizing σ with
  | nil => rfl
  | cons kv rest ih =>
    rw [List.foldl_cons, List.foldl_cons,
      ih _ (by rw [bucket_step_length]; exact h),
      bucket_step_value _ _ _ _ h]

theorem kafka_step_length (result : KafkaLogOptions) (pfx : String)
    (σ : List KafkaNative) (kv : String × String) :
    (KafkaLogOptions.envStep result pfx σ kv).length = σ.length := by
  unfold KafkaLogOptions.envStep KafkaLogOptions.set_broker_list
  split
  · simp [heapSet]
  rfl

theorem kafka_step_value (result : KafkaLogOptions) (pfx : String)
    (σ : List KafkaNative) (kv : String × String)
    (h : result.ptr < σ.length) :
    heapGet (KafkaLogOptions.envStep result pfx σ kv) result.ptr ⟨"", "", false⟩ =
      applyKafkaVar pfx (heapGet σ result.ptr ⟨"", "", false⟩) kv := by
  unfold KafkaLogOptions.envStep applyKafkaVar
    KafkaLogOptions.set_broker_list KafkaLogOptions.native
  by_cases h1 : kv.1 = pfx ++ "_BROKER_LIST"
  · simp only [if_pos h1]
    exact heapGet_set_self _ _ _ _ h
  simp only [if_neg h1]

theorem kafka_fold_value (result : KafkaLogOptions) (pfx : String)
    (env : EnvVars) (σ : List KafkaNative)
    (h : result.ptr < σ.length) :
    heapGet (env.foldl (KafkaLogOptions.envStep result pfx) σ)
        result.ptr ⟨"", "", false⟩ =
      env.foldl (applyKafkaVar pfx) (heapGet σ result.ptr ⟨"", "", false⟩) := by
  induction env generalizing σ with
  | nil => rfl
  | cons kv rest ih =>
    rw [List.foldl_cons, List.foldl_cons,
      ih _ (by rw [kafka_step_length]; exact h),
      kafka_step_value _ _ _ _ h]

theorem string_append_left_cancel {a s t : String} (h : a ++ s = a ++ t) :
    s = t := by
  have hd : a.data ++ s.data = a.data ++ t.data := by
    rw [← String.data_append, ← String.data_append, h]
  exact String.ext (List.append_cancel_left hd)

theorem pfx_keys_ne (pfx s t : String) (hst : s ≠ t) :
    pfx ++ s ≠ pfx ++ t :=
  fun h => hst (string_append_left_cancel h)

theorem applyBucket_fold_bucket_name_frame (pfx : String) (env : EnvVars)
    (n : BucketNative) (h : ∀ kv ∈ env, kv.1 ≠ pfx ++ "_BUCKET_NAME") :
    (env.foldl (applyBucketVar pfx) n).bucket_name = n.bucket_name := by
  induction env generalizing n with
  | nil => rfl
  | cons kv rest ih =>
    rw [List.foldl_cons,
      ih _ (fun kv hkv => h kv (List.mem_cons_of_mem _ hkv))]
    unfold applyBucketVar
    rw [if_neg (h kv (List.mem_cons_self kv rest))]
    split
    · rfl
    split
    · rfl
    rfl

theorem applyBucket_fold_region_frame (pfx : String) (env : EnvVars)
    (n : BucketNative) (h : ∀ kv ∈ env, kv.1 ≠ pfx ++ "_REGION") :
    (env.foldl (applyBucketVar pfx) n).region = n.region := by
  induction env generalizing n with
  | nil => rfl
  | cons kv rest ih =>
    rw [List.foldl_cons,
      ih _ (fun kv hkv => h kv (List.mem_cons_of_mem _ hkv))]
    unfold applyBucketVar
    split
    · rfl
    rw [if_neg (h kv (List.mem_cons_self kv rest))]
    split
    · rfl
    rfl

theorem applyBucket_fold_object_path_frame (pfx : String) (env : EnvVars)
    (n : BucketNative) (h : ∀ kv ∈ env, kv.1 ≠ pfx ++ "_OBJECT_PATH") :
    (env.foldl (applyBucketVar pfx) n).object_path = n.object_path := by
  induction env generalizing n with
  | nil => rfl
  | cons kv rest ih =>
    rw [List.foldl_cons,
      ih _ (fun kv hkv => h kv (List.mem_cons_of_mem _ hkv))]
    unfold applyBucketVar
    by_cases hb : kv.1 = pfx ++ "_BUCKET_NAME"
    · rw [if_pos hb]
    · rw [if_neg hb]
      by_cases hr : kv.1 = pfx ++ "_REGION"
      · rw [if_pos hr]
      · rw [if_neg hr, if_neg (h kv (List.mem_cons_self kv rest))]

theorem applyBucket_fold_bucket_name_lastVal (pfx : String) (env : EnvVars)
    (n : BucketNative) :
    (env.foldl (applyBucketVar pfx) n).bucket_name =
      (lastVal env (pfx ++ "_BUCKET_NAME")).getD n.bucket_name := by
  induction env generalizing n with
  | nil => rfl
  | cons kv rest ih =>
    rw [List.foldl_cons, ih]
    cases hl : lastVal rest (pfx ++ "_BUCKET_NAME") with
    | some v => simp [lastVal, hl]
    | none =>
      simp only [lastVal, hl, Option.getD_none]
      by_cases h1 : kv.1 = pfx ++ "_BUCKET_NAME"
      · unfold applyBucketVar
        simp only [if_pos h1, Option.getD_some]
      · simp only [if_neg h1, Option.getD_none]
        unfold applyBucketVar
        rw [if_neg h1]
        split
        · rfl
        split
        · rfl
        rfl

theorem applyBucket_fold_region_lastVal (pfx : String) (env : EnvVars)
    (n : BucketNative) :
    (env.foldl (applyBucketVar pfx) n).region =
      (lastVal env (pfx ++ "_REGION")).getD n.region := by
  induction env generalizing n with
  | nil => rfl
  | cons kv rest ih =>
    rw [List.foldl_cons, ih]
    cases hl : lastVal rest (pfx ++ "_REGION") with
    | some v => simp [lastVal, hl]
    | none =>
      simp only [lastVal, hl, Option.getD_none]
      by_cases h1 : kv.1 = pfx ++ "_REGION"
      · have hb : ¬ kv.1 = pfx ++ "_BUCKET_NAME" := by
          rw [h1]
          exact pfx_keys_ne pfx _ _ (by decide)
        unfold applyBucketVar
        simp only [if_neg hb, if_pos h1, Option.getD_some]
      · simp only [if_neg h1, Option.getD_none]
        unfold applyBucketVar
        by_cases hb : kv.1 = pfx ++ "_BUCKET_NAME"
        · rw [if_pos hb]
        · rw [if_neg hb, if_neg h1]
          by_cases hc : kv.1 = pfx ++ "_OBJECT_PATH"
          · rw [if_pos hc]
          · rw [if_neg hc]

theorem applyBucket_fold_object_path_lastVal (pfx : String) (env : EnvVars)
    (n : BucketNative) :
    (env.foldl (applyBucketVar pfx) n).object_path =
      (lastVal env (pfx ++ "_OBJECT_PATH")).getD n.object_path := by
  induction env generalizing n with
  | nil => rfl
  | cons kv rest ih =>
    rw [List.foldl_cons, ih]
    cases hl : lastVal rest (pfx ++ "_OBJECT_PATH") with
    | some v => simp [lastVal, hl]
    | none =>
      simp only [lastVal, hl, Option.getD_none]
      by_cases h1 : kv.1 = pfx ++ "_OBJECT_PATH"
      · have hb : ¬ kv.1 = pfx ++ "_BUCKET_NAME" := by
          rw [h1]
          exact pfx_keys_ne pfx _ _ (by decide)
        have hr : ¬ kv.1 = pfx ++ "_REGION" := by
          rw [h1]
          exact pfx_keys_ne pfx _ _ (by decide)
        unfold applyBucketVar
        simp only [if_neg hb, if_neg hr, if_pos h1, Option.getD_some]
      · simp only [if_neg h1, Option.getD_none]
        unfold applyBucketVar
        by_cases hb : kv.1 = pfx ++ "_BUCKET_NAME"
        · rw [if_pos hb]
        · rw [if_neg hb]
          by_cases hr : kv.1 = pfx ++ "_REGION"
          · rw [if_pos hr]
          · rw [if_neg hr, if_neg h1]

theorem applyKafka_fold_broker_list_lastVal (pfx : String) (env : EnvVars)
    (n : KafkaNative) :
    (env.foldl (applyKafkaVar pfx) n).broker_list =
      (lastVal env (pfx ++ "_BROKER_LIST")).getD n.broker_list := by
  induction env generalizing n with
  | nil => rfl
  | cons kv rest ih =>
    rw [List.foldl_cons, ih]
    cases hl : lastVal rest (pfx ++ "_BROKER_LIST") with
    | some v => simp [lastVal, hl]
    | none =>
      simp only [lastVal, hl, Option.getD_none]
      by_cases h1 : kv.1 = pfx ++ "_BROKER_LIST"
      · unfold applyKafkaVar
        simp only [if_pos h1, Option.getD_some]
      · simp only [if_neg h1, Option.getD_none]
        unfold applyKafkaVar
        rw [if_neg h1]

theorem kafka_fold_id (result : KafkaLogOptions) (pfx : String)
    (env : EnvVars) (σ : List KafkaNative)
    (h : ∀ kv ∈ env, kv.1 ≠ pfx ++ "_BROKER_LIST") :
    env.foldl (KafkaLogOptions.envStep result pfx) σ = σ := by
  induction env generalizing σ with
  | nil => rfl
  | cons kv rest ih =>
    rw [List.foldl_cons]
    have hstep : KafkaLogOptions.envStep result pfx σ kv = σ := by
      unfold KafkaLogOptions.envStep
      rw [if_neg (h kv (List.mem_cons_self kv rest))]
    rw [hstep]
    exact ih _ (fun kv hkv => h kv (List.mem_cons_of_mem _ hkv))

/-- C5 counterexample: for a Log-Shipping Descriptor D whose broker
list is "a", read_from_env with prefix "PX" in an environment binding
PX_BROKER_LIST to "b" mutates D itself: the result shares D's native
record, so after the call D's own getter reads "b". -/
theorem read_from_env_mutates_kafka_counterexample :
    KafkaLogOptions.get_broker_list ⟨0⟩ [⟨"a", "", false⟩] = "a" ∧
    KafkaLogOptions.get_broker_list ⟨0⟩
      ((KafkaLogOptions.read_from_env ⟨0⟩ "PX" [("PX_BROKER_LIST", "b")]
        [⟨"a", "", false⟩]).2) = "b" := by
  decide

/-- C5 amended: for a Bucket Descriptor the claim holds — the call
returns a fresh deep-copied descriptor, fields whose variable is
unset equal D's fields, and D's own native record is unchanged.  For
a Log-Shipping Descriptor the returned descriptor shares D's native
record (the clone clones the Arc, not the native resource): with the
broker-list variable unset nothing changes, but when it is set the
write lands in the shared record, mutating D as well. -/
theorem read_from_env_frame_and_sharing (d : CloudBucketOptions)
    (k : KafkaLogOptions) (pfx : String) (env : EnvVars)
    (σb : List BucketNative) (σk : List KafkaNative)
    (hd : d.ptr < σb.length) :
    (d.read_from_env pfx env σb).1.ptr ≠ d.ptr ∧
    d.native (d.read_from_env pfx env σb).2 = d.native σb ∧
    ((∀ kv ∈ env, kv.1 ≠ pfx ++ "_BUCKET_NAME") →
      (d.read_from_env pfx env σb).1.get_bucket_name
        (d.read_from_env pfx env σb).2 = d.get_bucket_name σb) ∧
    ((∀ kv ∈ env, kv.1 ≠ pfx ++ "_REGION") →
      (d.read_from_env pfx env σb).1.get_region
        (d.read_from_env pfx env σb).2 = d.get_region σb) ∧
    ((∀ kv ∈ env, kv.1 ≠ pfx ++ "_OBJECT_PATH") →
      (d.read_from_env pfx env σb).1.get_object_path
        (d.read_from_env pfx env σb).2 = d.get_object_path σb) ∧
    (k.read_from_env pfx env σk).1 = k ∧
    ((∀ kv ∈ env, kv.1 ≠ pfx ++ "_BROKER_LIST") →
      (k.read_from_env pfx env σk).2 = σk) := by
  have hptr : d.ptr ≠ σb.length := Nat.ne_of_lt hd
  have hres : (d.read_from_env pfx env σb).1 = ⟨σb.length⟩ := by
    rw [bucket_read_from_env_eq]
  have hstore : (d.read_from_env pfx env σb).2 =
      env.foldl (CloudBucketOptions.envStep ⟨σb.length⟩ pfx)
        (σb ++ [d.native σb]) := by
    rw [bucket_read_from_env_eq]
  have hlt : (⟨σb.length⟩ : CloudBucketOptions).ptr <
      (σb ++ [d.native σb]).length := by simp
  refine ⟨?_, ?_, ?_, ?_, ?_, rfl, ?_⟩
  · rw [hres]
    exact fun hh => hptr hh.symm
  · unfold CloudBucketOptions.native
    rw [hstore, bucket_fold_frame _ _ _ _ _ _ hptr,
      heapGet_append_left _ _ _ _ hd]
  · intro hun
    unfold CloudBucketOptions.get_bucket_name CloudBucketOptions.native
    rw [hres, hstore, bucket_fold_value _ _ _ _ hlt, heapGet_append_self]
    exact applyBucket_fold_bucket_name_frame pfx env _ hun
  · intro hun
    unfold CloudBucketOptions.get_region CloudBucketOptions.native
    rw [hres, hstore, bucket_fold_value _ _ _ _ hlt, heapGet_append_self]
    exact applyBucket_fold_region_frame pfx env _ hun
  · intro hun
    unfold CloudBucketOptions.get_object_path CloudBucketOptions.native
    rw [hres, hstore, bucket_fold_value _ _ _ _ hlt, heapGet_append_self]
    exact applyBucket_fold_object_path_frame pfx env _ hun
  · intro hun
    rw [kafka_read_from_env_eq]
    exact kafka_fold_id _ _ _ _ hun

/-- Witness for the amended C5 at a concrete one-record store, an
environment binding only the unrelated key "OTHER", and prefix
"PX". -/
theorem read_from_env_frame_and_sharing_witness :
    (CloudBucketOptions.read_from_env ⟨0⟩ "PX" [("OTHER", "x")]
      [⟨"bn", "rg", "op"⟩]).1.get_bucket_name
      (CloudBucketOptions.read_from_env ⟨0⟩ "PX" [("OTHER", "x")]
        [⟨"bn", "rg", "op"⟩]).2 =
      CloudBucketOptions.get_bucket_name ⟨0⟩ [⟨"bn", "rg", "op"⟩] ∧
    CloudBucketOptions.native ⟨0⟩
      (CloudBucketOptions.read_from_env ⟨0⟩ "PX" [("OTHER", "x")]
        [⟨"bn", "rg", "op"⟩]).2 =
      CloudBucketOptions.native ⟨0⟩ [⟨"bn", "rg", "op"⟩] ∧
    (KafkaLogOptions.read_from_env ⟨0⟩ "PX" [("OTHER", "x")]
      [⟨"bl", "", false⟩]).2 = [⟨"bl", "", false⟩] :=
  ⟨(read_from_env_frame_and_sharing ⟨0⟩ ⟨0⟩ "PX" [("OTHER", "x")]
      [⟨"bn", "rg", "op"⟩] [⟨"bl", "", false⟩] (by decide)).2.2.1 (by decide),
   (read_from_env_frame_and_sharing ⟨0⟩ ⟨0⟩ "PX" [("OTHER", "x")]
      [⟨"bn", "rg", "op"⟩] [⟨"bl", "", false⟩] (by decide)).2.1,
   (read_from_env_frame_and_sharing ⟨0⟩ ⟨0⟩ "PX" [("OTHER", "x")]
      [⟨"bn", "rg", "op"⟩] [⟨"bl", "", false⟩] (by decide)).2.2.2.2.2.2
      (by decide)⟩

/-- C6 counterexample: for a Log-Shipping Descriptor D with broker
list "a", clone(D) shares D's native record: setting the clone's
broker list to "b" makes D's own getter read "b", so mutating the
clone changes D. -/
theorem kafka_clone_shares_native_counterexample :
    KafkaLogOptions.get_broker_list ⟨0⟩ [⟨"a", "", false⟩] = "a" ∧
    KafkaLogOptions.get_broker_list ⟨0⟩
      ((KafkaLogOptions.clone ⟨0⟩).set_broker_list "b"
        [⟨"a", "", false⟩]) = "b" := by
  decide

/-- C6 amended: clone of a Bucket Descriptor is an independent deep
copy — any setter applied to the clone leaves every field of D
unchanged and vice versa; clone of a Log-Shipping Descriptor returns
a descriptor holding the very same native pointer, so the two are
not independent. -/
theorem clone_independence_bucket_deep_kafka_shallow
    (d : CloudBucketOptions) (k : KafkaLogOptions)
    (σ : List BucketNative) (hd : d.ptr < σ.length) :
    (d.clone σ).1.ptr ≠ d.ptr ∧
    (d.clone σ).1.native (d.clone σ).2 = d.native σ ∧
    (∀ v, d.native ((d.clone σ).1.set_bucket_name v (d.clone σ).2) =
      d.native σ) ∧
    (∀ v, d.native ((d.clone σ).1.set_region v (d.clone σ).2) =
      d.native σ) ∧
    (∀ v, d.native ((d.clone σ).1.set_object_path v (d.clone σ).2) =
      d.native σ) ∧
    (∀ v, (d.clone σ).1.native (d.set_bucket_name v (d.clone σ).2) =
      (d.clone σ).1.native (d.clone σ).2) ∧
    (∀ v, (d.clone σ).1.native (d.set_region v (d.clone σ).2) =
      (d.clone σ).1.native (d.clone σ).2) ∧
    (∀ v, (d.clone σ).1.native (d.set_object_path v (d.clone σ).2) =
      (d.clone σ).1.native (d.clone σ).2) ∧
    k.clone = k := by
  have hne : d.ptr ≠ σ.length := Nat.ne_of_lt hd
  have hclone : d.clone σ = (⟨σ.length⟩, σ ++ [d.native σ]) := rfl
  simp only [hclone]
  refine ⟨fun hh => hne hh.symm, heapGet_append_self σ _ _,
    fun v => ?_, fun v => ?_, fun v => ?_,
    fun v => ?_, fun v => ?_, fun v => ?_, rfl⟩
  · unfold CloudBucketOptions.set_bucket_name CloudBucketOptions.native
    rw [heapGet_set_ne _ _ _ _ _ (Ne.symm hne),
      heapGet_append_left _ _ _ _ hd]
  · unfold CloudBucketOptions.set_region CloudBucketOptions.native
    rw [heapGet_set_ne _ _ _ _ _ (Ne.symm hne),
      heapGet_append_left _ _ _ _ hd]
  · unfold CloudBucketOptions.set_object_path CloudBucketOptions.native
    rw [heapGet_set_ne _ _ _ _ _ (Ne.symm hne),
      heapGet_append_left _ _ _ _ hd]
  · unfold CloudBucketOptions.set_bucket_name CloudBucketOptions.native
    rw [heapGet_set_ne _ _ _ _ _ hne]
  · unfold CloudBucketOptions.set_region CloudBucketOptions.native
    rw [heapGet_set_ne _ _ _ _ _ hne]
  · unfold CloudBucketOptions.set_object_path CloudBucketOptions.native
    rw [heapGet_set_ne _ _ _ _ _ hne]

/-- Witness for the amended C6 at a concrete one-record bucket store
and a kafka descriptor. -/
theorem clone_independence_bucket_deep_kafka_shallow_witness :
    (∀ v, CloudBucketOptions.native ⟨0⟩
      ((CloudBucketOptions.clone ⟨0⟩ [⟨"bn", "rg", "op"⟩]).1.set_bucket_name v
        (CloudBucketOptions.clone ⟨0⟩ [⟨"bn", "rg", "op"⟩]).2) =
      CloudBucketOptions.native ⟨0⟩ [⟨"bn", "rg", "op"⟩]) ∧
    KafkaLogOptions.clone ⟨5⟩ = ⟨5⟩ :=
  ⟨(clone_independence_bucket_deep_kafka_shallow ⟨0⟩ ⟨5⟩
      [⟨"bn", "rg", "op"⟩] (by decide)).2.2.1,
   (clone_independence_bucket_deep_kafka_shallow ⟨0⟩ ⟨5⟩
      [⟨"bn", "rg", "op"⟩] (by decide)).2.2.2.2.2.2.2.2⟩

/-- C7: default construction of a Bucket Descriptor runs
read_from_env with the fixed prefix ROCKSDB_CLOUD, so each of its
three fields equals the last environment binding of
ROCKSDB_CLOUD_BUCKET_NAME / ROCKSDB_CLOUD_REGION /
ROCKSDB_CLOUD_OBJECT_PATH, or the natively-created initial value when
the variable is unset; default construction of a Log-Shipping
Descriptor likewise seeds its broker list from
ROCKSDB_CLOUD_KAFKA_LOG_BROKER_LIST. -/
theorem default_seeded_from_fixed_env_vars (initB : BucketNative)
    (initK : KafkaNative) (env : EnvVars) (σb : List BucketNative)
    (σk : List KafkaNative) :
    (CloudBucketOptions.defaultWith initB env σb).1.get_bucket_name
        (CloudBucketOptions.defaultWith initB env σb).2 =
      (lastVal env "ROCKSDB_CLOUD_BUCKET_NAME").getD initB.bucket_name ∧
    (CloudBucketOptions.defaultWith initB env σb).1.get_region
        (CloudBucketOptions.defaultWith initB env σb).2 =
      (lastVal env "ROCKSDB_CLOUD_REGION").getD initB.region ∧
    (CloudBucketOptions.defaultWith initB env σb).1.get_object_path
        (CloudBucketOptions.defaultWith initB env σb).2 =
      (lastVal env "ROCKSDB_CLOUD_OBJECT_PATH").getD initB.object_path ∧
    (KafkaLogOptions.defaultWith initK env σk).1.get_broker_list
        (KafkaLogOptions.defaultWith initK env σk).2 =
      (lastVal env "ROCKSDB_CLOUD_KAFKA_LOG_BROKER_LIST").getD
        initK.broker_list := by
  have hstep : CloudBucketOptions.defaultWith initB env σb =
      (⟨(σb ++ [initB]).length⟩,
       env.foldl
         (CloudBucketOptions.envStep ⟨(σb ++ [initB]).length⟩ "ROCKSDB_CLOUD")
         ((σb ++ [initB]) ++ [initB])) := by
    unfold CloudBucketOptions.defaultWith
    rw [bucket_read_from_env_eq,
      show CloudBucketOptions.native ⟨σb.length⟩ (σb ++ [initB]) = initB from
        heapGet_append_self σb initB ⟨"", "", ""⟩]
  have hlt : (⟨(σb ++ [initB]).length⟩ : CloudBucketOptions).ptr <
      ((σb ++ [initB]) ++ [initB]).length := by simp
  have hstepK : KafkaLogOptions.defaultWith initK env σk =
      (⟨σk.length⟩,
       env.foldl
         (KafkaLogOptions.envStep ⟨σk.length⟩ "ROCKSDB_CLOUD_KAFKA_LOG")
         (σk ++ [initK])) := rfl
  have hltK : (⟨σk.length⟩ : KafkaLogOptions).ptr <
      (σk ++ [initK]).length := by simp
  refine ⟨?_, ?_, ?_, ?_⟩
  · unfold CloudBucketOptions.get_bucket_name CloudBucketOptions.native
    rw [hstep, bucket_fold_value _ _ _ _ hlt, heapGet_append_self,
      applyBucket_fold_bucket_name_lastVal]
    rfl
  · unfold CloudBucketOptions.get_region CloudBucketOptions.native
    rw [hstep, bucket_fold_value _ _ _ _ hlt, heapGet_append_self,
      applyBucket_fold_region_lastVal]
    rfl
  · unfold CloudBucketOptions.get_object_path CloudBucketOptions.native
    rw [hstep, bucket_fold_value _ _ _ _ hlt, heapGet_append_self,
      applyBucket_fold_object_path_lastVal]
    rfl
  · unfold KafkaLogOptions.get_broker_list KafkaLogOptions.native
    rw [hstepK, kafka_fold_value _ _ _ _ hltK, heapGet_append_self,
      applyKafka_fold_broker_list_lastVal]
    rfl

/-
Round-trip lemmas for the debug-context serialization.
-/

theorem parseToken_as_str (c : KafkaDebugContext) :
    parseToken c.as_str = some c := by
  cases c <;> rfl

theorem as_str_no_comma (c : KafkaDebugContext) :
    ',' ∉ (KafkaDebugContext.as_str c).data := by
  cases c <;> decide

theorem splitCommaChars_of_not_mem (cs : List Char) (h : ',' ∉ cs) :
    splitCommaChars cs = [cs] := by
  induction cs with
  | nil => rfl
  | cons c rest ih =>
    have hc : ¬ c = ',' := fun hh => h (hh ▸ List.mem_cons_self c rest)
    unfold splitCommaChars
    rw [if_neg hc, ih (fun hm => h (List.mem_cons_of_mem _ hm))]

theorem splitCommaChars_append (cs ds : List Char) (h : ',' ∉ cs) :
    splitCommaChars (cs ++ ',' :: ds) = cs :: splitCommaChars ds := by
  induction cs with
  | nil =>
    show splitCommaChars (',' :: ds) = [] :: splitCommaChars ds
    simp [splitCommaChars]
  | cons c rest ih =>
    have hc : ¬ c = ',' := fun hh => h (hh ▸ List.mem_cons_self c rest)
    show splitCommaChars (c :: (rest ++ ',' :: ds)) = _
    simp only [splitCommaChars]
    rw [if_neg hc, ih (fun hm => h (List.mem_cons_of_mem _ hm))]

theorem data_append_comma (a b : String) :
    (a ++ "," ++ b).data = a.data ++ ',' :: b.data := by
  rw [String.data_append, String.data_append]
  show a.data ++ [','] ++ b.data = a.data ++ ',' :: b.data
  simp

theorem rustSplitComma_join_as_str (l : List KafkaDebugContext)
    (h : l ≠ []) :
    rustSplitComma (joinComma (l.map KafkaDebugContext.as_str)) =
      l.map KafkaDebugContext.as_str := by
  induction l with
  | nil => exact absurd rfl h
  | cons c rest ih =>
    cases rest with
    | nil =>
      show rustSplitComma (KafkaDebugContext.as_str c) =
        [KafkaDebugContext.as_str c]
      unfold rustSplitComma
      rw [splitCommaChars_of_not_mem _ (as_str_no_comma c)]
      rfl
    | cons c' rest' =>
      have hjoin : joinComma ((c :: c' :: rest').map KafkaDebugContext.as_str) =
          KafkaDebugContext.as_str c ++ "," ++
            joinComma ((c' :: rest').map KafkaDebugContext.as_str) := rfl
      unfold rustSplitComma
      rw [hjoin, data_append_comma,
        splitCommaChars_append _ _ (as_str_no_comma c), List.map_cons]
      rw [List.map_cons]
      congr 1
      exact ih (List.cons_ne_nil c' rest')

theorem parseTokens_map_as_str (l : List KafkaDebugContext) :
    parseTokens (l.map KafkaDebugContext.as_str) = .ok l := by
  induction l with
  | nil => rfl
  | cons c rest ih =>
    rw [List.map_cons]
    unfold parseTokens
    rw [parseToken_as_str, ih]

/-- C9 counterexample: for the empty set of debug contexts, the
comma-joined serialization produced by set_debug is the empty string,
and re-parsing it panics on the empty token instead of yielding the
empty set — the claimed round trip fails at this input. -/
theorem empty_debug_set_roundtrip_counterexample :
    serializeDebug [] = "" ∧
    KafkaDebugContext.parse (serializeDebug []) =
      .panicked "Unknown KafkaDebugContext: " := by
  decide

/-- C9 amended: each Configuration setter with a matching getter
(persistent cache path, persistent cache size in GB, log level)
round-trips exactly; and for every non-empty sequence of debug
contexts, the comma-joined serialization produced by set_debug
re-parses to the very same sequence (hence the same set).  The empty
sequence is excluded: its serialization is "" and re-parsing ""
panics. -/
theorem setter_getter_roundtrip (o : CloudFileSystemOptionsWrapper)
    (p : String) (s : Nat) (l : LogLevel) (cs : List KafkaDebugContext)
    (hcs : cs ≠ []) :
    (o.set_persistent_cache_path p).get_persistent_cache_path = some p ∧
    (o.set_persistent_cache_size_gb s).get_persistent_cache_size_gb =
      some s ∧
    (o.set_log_level l).get_log_level = l ∧
    KafkaDebugContext.parse (serializeDebug cs) = .ok cs := by
  refine ⟨rfl, rfl, rfl, ?_⟩
  unfold KafkaDebugContext.parse serializeDebug
  rw [rustSplitComma_join_as_str cs hcs, parseTokens_map_as_str]

/-- Witness for the amended C9 at concrete values: cache path "c",
cache size 4, log level Warn, and the context sequence Broker,
Topic. -/
theorem setter_getter_roundtrip_witness :
    (CloudFileSystemOptionsWrapper.defaultWrapper.set_persistent_cache_path
      "c").get_persistent_cache_path = some "c" ∧
    (CloudFileSystemOptionsWrapper.defaultWrapper.set_persistent_cache_size_gb
      4).get_persistent_cache_size_gb = some 4 ∧
    (CloudFileSystemOptionsWrapper.defaultWrapper.set_log_level
      LogLevel.Warn).get_log_level = LogLevel.Warn ∧
    KafkaDebugContext.parse (serializeDebug [.Broker, .Topic]) =
      .ok [.Broker, .Topic] :=
  setter_getter_roundtrip CloudFileSystemOptionsWrapper.defaultWrapper
    "c" 4 LogLevel.Warn [.Broker, .Topic] (by decide)

end RocksdbCloud
